import Mathlib

/-!
# ReplayShell: topology reconstruction and replay orchestration

A shallow embedding of `src/frontend/replayshell.cc` (`add_dummy_interface` and
`main`).  `main` is a straight-line program over external collaborators
(kernel calls, the record decoder, the event loop); it is embedded as a
function from the environment it runs in (`World`) and its argument vector to
the list of external operations it performs (`Run.trace`) together with the
way it ends (`Run.result`).
-/

namespace ReplayShell

/-! ## Values -/

/-- Modelled from the spec: the `Address` value type (`address.hh` is not among
the sources) is an (IP, port) pair; `ip` is the text that `Address::ip()`
returns and `port` the 16-bit port that `Address::port()` returns.  Its
comparison `operator<`, which keys the sets of `main`, is total: whatever
uses it below takes an arbitrary `LinearOrder Address`. -/
structure Address where
  ip : String
  port : Nat
deriving DecidableEq, Repr

/-- Modelled from the spec: the constructor `Address( ip, port )` taking the
textual IP and a `uint16_t` port (`address.hh` is not among the sources). -/
def Address.make (ip : String) (port : Nat) : Address :=
  ⟨ip, port % 65536⟩

/-- The three fields of a decoded `MahimahiProtobufs::RequestResponse` that
`main` consumes: `protobuf.ip()`, `protobuf.port()` and the value of the
`Host` header of `HTTPRequest( protobuf.request() )`.  The decoder and the
header lookup are external to `main`; a decoded record comes with its `Host`
header. -/
structure Record where
  ip : String
  port : Nat
  host : String
deriving DecidableEq, Repr

/-! ## `std::set` -/

/-- The `emplace` of a `std::set`: the elements are kept in ascending order of
the comparison `<`, and an element equivalent to one already present (neither
is less than the other) is not inserted. -/
def set_emplace {α : Type} [LinearOrder α] (x : α) : List α → List α
  | [] => [x]
  | y :: ys =>
    if x < y then x :: y :: ys
    else if y < x then y :: set_emplace x ys
    else y :: ys

/-! ## The corpus scan (lines 94-123) -/

/-- The four collections declared at lines 95-98 of `main`. -/
structure TopologyModel where
  unique_ip : List Address
  unique_ip_and_port : List Address
  unique_port : List Nat
  hostname_to_ip : List (String × Address)

/-- The collections before the first record is scanned. -/
def TopologyModel.empty : TopologyModel := ⟨[], [], [], []⟩

/-- The body of the scan loop for one decoded record (lines 114-121). -/
def TopologyModel.add [LinearOrder Address] (m : TopologyModel) (r : Record) :
    TopologyModel :=
  let address := Address.make r.ip r.port
  { unique_ip := set_emplace (Address.make address.ip 0) m.unique_ip
    unique_ip_and_port := set_emplace address m.unique_ip_and_port
    unique_port := set_emplace (address.port % 65536) m.unique_port
    hostname_to_ip := m.hostname_to_ip ++ [(r.host, address)] }

/-- The scan loop over a list of decoded records, in listing order. -/
def scan_records [LinearOrder Address] (rs : List Record) : TopologyModel :=
  rs.foldl TopologyModel.add TopologyModel.empty

/-! ## External operations, the environment and runs -/

/-- A child handed to `event_loop.add_child_process`. -/
inductive Child where
  /-- The process returned by `start_dnsmasq( dnsmasq_args )` (line 174). -/
  | dnsmasq (args : List String)
  /-- The child of lines 177-185: it drops privileges, restores the
  environment, tweaks the prompt and execs `command`. -/
  | user_command (command : List String)
deriving DecidableEq, Repr

/-- The external operations of `main`, in the vocabulary of the source. -/
inductive Event where
  /-- Lines 40-41: `environ = nullptr`. -/
  | clear_environment
  /-- Line 43: `check_requirements( argc, argv )`. -/
  | check_requirements (argv : List String)
  /-- Line 69: `get_working_directory()`. -/
  | get_working_directory
  /-- Line 72: `chdir( working_directory )`. -/
  | chdir (working_directory : String)
  /-- Line 85: `unshare( CLONE_NEWNET )`, a new network namespace. -/
  | unshare_newnet
  /-- Lines 30 and 88: `interface_ioctl( SIOCSIFFLAGS, name, IFF_UP )`. -/
  | interface_up (name : String)
  /-- Line 92: `srandom( time( NULL ) )`. -/
  | srandom
  /-- Line 101: the constructor of `TemporarilyUnprivileged`. -/
  | lower_privileges
  /-- Line 123: the destructor of `TemporarilyUnprivileged`. -/
  | restore_privileges
  /-- Line 104: `list_directory_contents( directory )`. -/
  | list_directory_contents (directory : String)
  /-- Line 107: `open( filename, O_RDONLY )`. -/
  | open_file (filename : String)
  /-- Line 28: `run( { IP, "link", "add", name, "type", "dummy" } )`. -/
  | link_add_dummy (name : String)
  /-- Line 32: `interface_ioctl( SIOCSIFADDR, name, addr )`. -/
  | interface_address (name : String) (addr : Address)
  /-- Line 141: the constructor of `TempFile`. -/
  | temp_file (filename_template : String)
  /-- Lines 143 and 151: a line on `cerr`. -/
  | cerr (text : String)
  /-- Line 153: `WebServer( ip_port, working_directory, directory )`. -/
  | web_server (addr : Address) (working_directory record_path : String)
  /-- Line 144: `WebServer( single_server_listen_ip, unique_port,
  working_directory, directory )`. -/
  | web_server_single (ip : String) (ports : List Nat) (working_directory record_path : String)
  /-- Lines 148 and 157: `dnsmasq_hosts.write( text )`. -/
  | write_hosts (text : String)
  /-- Line 162: the constructor of `EventLoop`. -/
  | event_loop_create
  /-- Line 165: `all_nameservers()`. -/
  | all_nameservers
  /-- Line 174: `start_dnsmasq( dnsmasq_args )`. -/
  | start_dnsmasq (args : List String)
  /-- Lines 174 and 177: `event_loop.add_child_process( ... )`. -/
  | add_child_process (child : Child)
  /-- Line 187: `event_loop.loop()`. -/
  | loop
  /-- Line 189: `print_exception( e )`. -/
  | print_exception (what : String)
deriving DecidableEq, Repr

/-- The environment `main` runs in: what the external helpers (none of them
among the sources) return, and which external operations throw. -/
structure World where
  /-- The exception text an external operation throws, if it throws. -/
  fails : Event → Option String
  /-- The value of `get_working_directory()`. -/
  working_directory : String
  /-- The value of `shell_path()`. -/
  shell_path : String
  /-- The file names `list_directory_contents( directory )` returns. -/
  directory_contents : String → List String
  /-- The record `ParseFromFileDescriptor` decodes from a file, `none` when
  it returns false. -/
  parse : String → Option Record
  /-- The value of `dnsmasq_hosts.name()` for a `TempFile` made from a template. -/
  temp_file_name : String → String
  /-- The value of `all_nameservers()`. -/
  nameservers : List Address
  /-- The value `event_loop.loop()` returns. -/
  loop_status : Nat

/-- How a computation ends: with a value, with a C++ exception carrying the
text `what`, or in the construction of a `std::string` from `argv[ index ]`
where `index` is not below `argc` (the null pointer that ends `argv`, or
beyond it), which has no defined behaviour. -/
inductive Result (α : Type) where
  | ok (value : α)
  | thrown (what : String)
  | bad_argv (index : Nat)
deriving DecidableEq, Repr

/-- A computation that has run: the external operations it performed, in
order, and how it ended. -/
structure Run (α : Type) where
  trace : List Event
  result : Result α
deriving DecidableEq, Repr

/-- Sequencing: the second computation runs only when the first ended with a
value. -/
def Run.bind {α β : Type} (r : Run α) (f : α → Run β) : Run β :=
  match r.result with
  | .ok a => ⟨r.trace ++ (f a).trace, (f a).result⟩
  | .thrown what => ⟨r.trace, .thrown what⟩
  | .bad_argv i => ⟨r.trace, .bad_argv i⟩

instance : Monad Run where
  pure a := ⟨[], .ok a⟩
  bind := Run.bind

/-- The statement `throw runtime_error( what )`. -/
def Run.throw {α : Type} (what : String) : Run α := ⟨[], .thrown what⟩

/-- An external operation that cannot throw. -/
def emit (e : Event) : Run Unit := ⟨[e], .ok ()⟩

/-- An external operation: it throws when the environment says so, and is
recorded in the trace when it succeeds. -/
def perform (w : World) (e : Event) : Run Unit :=
  match w.fails e with
  | none => ⟨[e], .ok ()⟩
  | some what => ⟨[], .thrown what⟩

/-- The expression `string( argv[ i ] )`. -/
def argv_string (argv : List String) (i : Nat) : Run String :=
  match argv.get? i with
  | some s => pure s
  | none => ⟨[], .bad_argv i⟩

/-! ## `add_dummy_interface` (lines 26-34) -/

/-- The function `add_dummy_interface( name, addr )`. -/
def add_dummy_interface (w : World) (name : String) (addr : Address) : Run Unit := do
  perform w (.link_add_dummy name)
  perform w (.interface_up name)
  perform w (.interface_address name addr)

/-! ## `main` (lines 36-192) -/

/-- Lines 63-66: `if ( directory.back() != '/' ) directory.append( "/" )`. -/
def clean_directory (directory : String) : String :=
  if directory.data.getLast? ≠ some '/' then directory ++ "/" else directory

/-- Lines 75-82: the command to run inside the container. -/
def command_of (w : World) (argv : List String) (ii : Nat) : List String :=
  if ii = argv.length then [w.shell_path] else argv.drop ii

/-- The loop of lines 106-122 over the listed files. -/
def scan_files [LinearOrder Address] (w : World) :
    List String → TopologyModel → Run TopologyModel
  | [], m => pure m
  | filename :: files, m => do
    perform w (.open_file filename)
    match w.parse filename with
    | none => Run.throw (filename ++ ": invalid HTTP request/response")
    | some protobuf => scan_files w files (m.add protobuf)

/-- The block of lines 100-123: the scan, inside the scope of a
`TemporarilyUnprivileged` whose destructor also runs when the block is left
by an exception. -/
def corpus_scan [LinearOrder Address] (w : World) (directory : String) :
    Run TopologyModel := do
  perform w .lower_privileges
  let body : Run TopologyModel := do
    perform w (.list_directory_contents directory)
    scan_files w (w.directory_contents directory) TopologyModel.empty
  match body.result with
  | .ok m => do
    let _ ← body
    perform w .restore_privileges
    pure m
  | r => ⟨body.trace ++ (perform w .restore_privileges).trace, r⟩

/-- The value of `single_server_listen_ip` (line 126). -/
def single_server_listen_ip : String := "23.253.180.102"

/-- The loop of lines 132-136, `interface_counter` being an `unsigned int`. -/
def add_sharded_interfaces (w : World) : List Address → Nat → Run Unit
  | [], _ => pure ()
  | ip :: unique_ip, interface_counter => do
    add_dummy_interface w ("sharded" ++ toString interface_counter) ip
    add_sharded_interfaces w unique_ip ((interface_counter + 1) % 4294967296)

/-- Lines 128-137: the dummy interfaces of the origin servers. -/
def origin_interfaces (w : World) (single_server : Bool) (m : TopologyModel) : Run Unit :=
  if single_server then
    add_dummy_interface w "external" (Address.make single_server_listen_ip 0)
  else
    add_sharded_interfaces w m.unique_ip 0

/-- The loop of lines 152-154. -/
def sharded_servers (w : World) (working_directory directory : String) :
    List Address → Run Unit
  | [] => pure ()
  | ip_port :: rest => do
    perform w (.web_server ip_port working_directory directory)
    sharded_servers w working_directory directory rest

/-- The loops of lines 147-149 and 156-158: one write per mapping. -/
def write_mappings (w : World) (line : String × Address → String) :
    List (String × Address) → Run Unit
  | [] => pure ()
  | mapping :: rest => do
    perform w (.write_hosts (line mapping))
    write_mappings w line rest

/-- Lines 142-159: the web servers and the lines of the hosts file. -/
def servers_and_hosts (w : World) (single_server : Bool) (working_directory directory : String)
    (m : TopologyModel) : Run Unit :=
  if single_server then do
    emit (.cerr "[ReplayShell] Running in single-server mode...")
    perform w (.web_server_single single_server_listen_ip m.unique_port working_directory directory)
    write_mappings w (fun mapping => single_server_listen_ip ++ " " ++ mapping.1 ++ "\n")
      m.hostname_to_ip
  else do
    emit (.cerr "[ReplayShell] Running in multi-server mode...")
    sharded_servers w working_directory directory m.unique_ip_and_port
    write_mappings w (fun mapping => mapping.2.ip ++ " " ++ mapping.1 ++ "\n")
      m.hostname_to_ip

/-- The loop of lines 168-171 from index `server_num` on; the loop ends only
while `server_num`, an `unsigned int`, stays below the number of resolvers, so
the index never wraps in a loop that ends. -/
def nameserver_interfaces (w : World) : List Address → Nat → Run Unit
  | [], _ => pure ()
  | nameserver :: rest, server_num => do
    add_dummy_interface w ("nameserver" ++ toString server_num) nameserver
    nameserver_interfaces w rest (server_num + 1)

/-- Lines 84-187, from the new network namespace to the event loop. -/
def container [LinearOrder Address] (w : World) (single_server : Bool)
    (directory working_directory : String) (command : List String) : Run Nat := do
  perform w .unshare_newnet
  perform w (.interface_up "lo")
  emit .srandom
  let m ← corpus_scan w directory
  origin_interfaces w single_server m
  perform w (.temp_file "/tmp/replayshell_hosts")
  servers_and_hosts w single_server working_directory directory m
  perform w .event_loop_create
  perform w .all_nameservers
  let dnsmasq_args := ["-H", w.temp_file_name "/tmp/replayshell_hosts"]
  nameserver_interfaces w w.nameservers 0
  perform w (.start_dnsmasq dnsmasq_args)
  perform w (.add_child_process (.dnsmasq dnsmasq_args))
  perform w (.add_child_process (.user_command command))
  perform w .loop
  pure w.loop_status

/-- The `try` block of `main` (lines 39-187). -/
def main_try [LinearOrder Address] (w : World) (argv : List String) : Run Nat := do
  emit .clear_environment
  perform w (.check_requirements argv)
  if argv.length < 2 then do
    let program ← argv_string argv 0
    Run.throw ("Usage: " ++ program ++ " directory [command...]")
  else do
    let single_server : Bool := decide (argv.get? 1 = some "--single-server")
    let ii := if single_server then 2 else 1
    let directory ← argv_string argv ii
    let ii := ii + 1
    if directory = "" then do
      let program ← argv_string argv 0
      Run.throw (program ++ ": directory name must be non-empty")
    else do
      let directory := clean_directory directory
      perform w .get_working_directory
      let working_directory := w.working_directory
      perform w (.chdir working_directory)
      let command := command_of w argv ii
      container w single_server directory working_directory command

/-- The value of `EXIT_FAILURE`. -/
def EXIT_FAILURE : Nat := 1

/-- The function `main`: an exception leaving the `try` block is printed and
the exit status is `EXIT_FAILURE` (lines 188-191). -/
def main [LinearOrder Address] (w : World) (argv : List String) : Run Nat :=
  let r := main_try w argv
  match r.result with
  | .thrown what => ⟨r.trace ++ [.print_exception what], .ok EXIT_FAILURE⟩
  | _ => r

/-- A total order on addresses, by IP text and then port, used to evaluate the
definitions on concrete corpora. -/
def Address.lexOrder : LinearOrder Address :=
  LinearOrder.lift' (fun a : Address => toLex (a.ip.data.map Char.toNat, a.port))
    (by
      intro a b h
      cases a with | mk ai ap => cases b with | mk bi bp =>
      simp only [EmbeddingLike.apply_eq_iff_eq, Prod.mk.injEq] at h
      obtain ⟨h1, h2⟩ := h
      have h3 : ai.data = bi.data :=
        List.map_injective_iff.mpr (fun x y hxy => Char.ext (UInt32.ext (by
          simpa [Char.toNat, UInt32.toNat] using hxy))) h1
      have : ai = bi := String.ext h3
      subst this; subst h2; rfl)

/-! ## The operations of a run in which nothing throws -/

/-- No external operation throws. -/
def World.cooperative (w : World) : Prop := ∀ e, w.fails e = none

/-- The three operations of one `add_dummy_interface` call. -/
def interface_events (name : String) (addr : Address) : List Event :=
  [.link_add_dummy name, .interface_up name, .interface_address name addr]

/-- The argument vector `program [--single-server] <directory> [command...]`. -/
def command_line (program : String) (single_server : Bool) (directory : String)
    (command : List String) : List String :=
  program :: ((if single_server then ["--single-server"] else []) ++ directory :: command)

/-- The values `interface_counter` takes along the loop of lines 132-136,
paired with the addresses the loop visits. -/
def sharded_numbering : Nat → List Address → List (Nat × Address)
  | _, [] => []
  | k, a :: l => (k, a) :: sharded_numbering ((k + 1) % 4294967296) l

/-- The dummy interfaces of lines 128-137, as (name, address) pairs. -/
def origin_interface_list (single_server : Bool) (m : TopologyModel) :
    List (String × Address) :=
  if single_server then [("external", Address.make single_server_listen_ip 0)]
  else (sharded_numbering 0 m.unique_ip).map (fun p => ("sharded" ++ toString p.1, p.2))

/-- The operations of the scan block (lines 100-123) when every file opens and
decodes. -/
def scan_events (w : World) (directory : String) : List Event :=
  [.lower_privileges, .list_directory_contents directory]
    ++ (w.directory_contents directory).map .open_file ++ [.restore_privileges]

/-- The operations of lines 142-159 when none of them throws. -/
def server_events (single_server : Bool) (working_directory directory : String)
    (m : TopologyModel) : List Event :=
  if single_server then
    [.cerr "[ReplayShell] Running in single-server mode...",
      .web_server_single single_server_listen_ip m.unique_port working_directory directory]
      ++ m.hostname_to_ip.map
          (fun mapping => .write_hosts (single_server_listen_ip ++ " " ++ mapping.1 ++ "\n"))
  else
    [.cerr "[ReplayShell] Running in multi-server mode..."]
      ++ m.unique_ip_and_port.map (fun a => .web_server a working_directory directory)
      ++ m.hostname_to_ip.map
          (fun mapping => .write_hosts (mapping.2.ip ++ " " ++ mapping.1 ++ "\n"))

/-- The command run in the container for the tail `[command...]` of the
argument vector: the shell when the tail is empty. -/
def user_command (w : World) (command : List String) : List String :=
  match command with
  | [] => [w.shell_path]
  | _ => command

/-- The arguments `main` gives to dnsmasq. -/
def dnsmasq_args (w : World) : List String :=
  ["-H", w.temp_file_name "/tmp/replayshell_hosts"]

/-- The operations of lines 161-187 when none of them throws. -/
def supervision_events (w : World) (command : List String) : List Event :=
  [.event_loop_create, .all_nameservers]
    ++ (w.nameservers.enumFrom 0).flatMap
        (fun p => interface_events ("nameserver" ++ toString p.1) p.2)
    ++ [.start_dnsmasq (dnsmasq_args w), .add_child_process (.dnsmasq (dnsmasq_args w)),
        .add_child_process (.user_command command), .loop]

/-- The operations of a whole run of `main` in which nothing throws. -/
def success_trace (w : World) (argv : List String) (single_server : Bool)
    (directory : String) (command : List String) (m : TopologyModel) : List Event :=
  [.clear_environment, .check_requirements argv, .get_working_directory,
      .chdir w.working_directory, .unshare_newnet, .interface_up "lo", .srandom]
    ++ scan_events w directory
    ++ (origin_interface_list single_server m).flatMap (fun p => interface_events p.1 p.2)
    ++ [.temp_file "/tmp/replayshell_hosts"]
    ++ server_events single_server w.working_directory directory m
    ++ supervision_events w command

/-! ## What a trace shows -/

/-- The texts written to the hosts file, in order. -/
def hosts_writes (t : List Event) : List String :=
  t.filterMap fun e => match e with
    | .write_hosts text => some text
    | _ => none

/-- The names of the dummy interfaces created, in order. -/
def created_interfaces (t : List Event) : List String :=
  t.filterMap fun e => match e with
    | .link_add_dummy name => some name
    | _ => none

/-- The addresses assigned to interfaces, in order. -/
def assigned_addresses (t : List Event) : List (String × Address) :=
  t.filterMap fun e => match e with
    | .interface_address name addr => some (name, addr)
    | _ => none

/-- The `WebServer` constructions, in order. -/
def web_servers (t : List Event) : List Event :=
  t.filter fun e => match e with
    | .web_server _ _ _ => true
    | .web_server_single _ _ _ _ => true
    | _ => false

/-- The children registered with the event loop, in order. -/
def registered_children (t : List Event) : List Child :=
  t.filterMap fun e => match e with
    | .add_child_process child => some child
    | _ => none

/-! ## Concrete corpora -/

/-- A corpus of two records with the same origin IP and the ports 80 and 443,
in a directory `corpus/`, and one resolver. -/
def two_port_world : World :=
  { fails := fun _ => none
    working_directory := "/home/user"
    shell_path := "/bin/sh"
    directory_contents := fun d =>
      if d = "corpus/" then ["corpus/save.1", "corpus/save.2"] else []
    parse := fun f =>
      if f = "corpus/save.1" then some ⟨"10.0.0.1", 80, "example.com"⟩
      else if f = "corpus/save.2" then some ⟨"10.0.0.1", 443, "example.com"⟩
      else none
    temp_file_name := fun t => t ++ ".1a2b3c"
    nameservers := [⟨"8.8.8.8", 53⟩]
    loop_status := 0 }

/-- The records of `two_port_world`, in listing order. -/
def two_port_records : List Record :=
  [⟨"10.0.0.1", 80, "example.com"⟩, ⟨"10.0.0.1", 443, "example.com"⟩]

/-- An empty corpus directory `corpus/`, and one resolver. -/
def empty_world : World :=
  { fails := fun _ => none
    working_directory := "/home/user"
    shell_path := "/bin/sh"
    directory_contents := fun _ => []
    parse := fun _ => none
    temp_file_name := fun t => t ++ ".1a2b3c"
    nameservers := [⟨"8.8.8.8", 53⟩]
    loop_status := 0 }

/-- A run in which the directory `nowhere/` does not exist: listing it throws. -/
def missing_world : World :=
  { fails := fun e =>
      if e = .list_directory_contents "nowhere/" then
        some "opendir (nowhere/): No such file or directory"
      else none
    working_directory := "/home/user"
    shell_path := "/bin/sh"
    directory_contents := fun _ => []
    parse := fun _ => none
    temp_file_name := fun t => t ++ ".1a2b3c"
    nameservers := [⟨"8.8.8.8", 53⟩]
    loop_status := 0 }

/-- A corpus directory `corpus/` holding one record and one file that is not
a record. -/
def broken_world : World :=
  { fails := fun _ => none
    working_directory := "/home/user"
    shell_path := "/bin/sh"
    directory_contents := fun d =>
      if d = "corpus/" then ["corpus/save.1", "corpus/notes.txt"] else []
    parse := fun f =>
      if f = "corpus/save.1" then some ⟨"10.0.0.1", 80, "example.com"⟩ else none
    temp_file_name := fun t => t ++ ".1a2b3c"
    nameservers := [⟨"8.8.8.8", 53⟩]
    loop_status := 0 }

/-! ## Facts about `set_emplace` -/

section Sets

variable {α β : Type} [LinearOrder α]

theorem mem_set_emplace (a x : α) (l : List α) :
    a ∈ set_emplace x l ↔ a = x ∨ a ∈ l := by
  induction l with
  | nil => simp [set_emplace]
  | cons y ys ih =>
    unfold set_emplace
    split_ifs with h1 h2
    · simp
    · simp only [List.mem_cons, ih]
      tauto
    · have hxy : x = y := le_antisymm (not_lt.mp h2) (not_lt.mp h1)
      subst hxy
      simp

theorem sorted_set_emplace (x : α) (l : List α) (hl : l.Sorted (· < ·)) :
    (set_emplace x l).Sorted (· < ·) := by
  induction l with
  | nil => simp [set_emplace]
  | cons y ys ih =>
    have hys : ys.Sorted (· < ·) := hl.of_cons
    have hy : ∀ b ∈ ys, y < b := List.rel_of_sorted_cons hl
    unfold set_emplace
    split_ifs with h1 h2
    · refine List.sorted_cons.mpr ⟨?_, hl⟩
      intro b hb
      rcases List.mem_cons.mp hb with rfl | hb
      · exact h1
      · exact lt_trans h1 (hy b hb)
    · refine List.sorted_cons.mpr ⟨?_, ih hys⟩
      intro b hb
      rcases (mem_set_emplace b x ys).mp hb with rfl | hb
      · exact h2
      · exact hy b hb
    · exact hl

/-- Membership in a set filled by a loop of `emplace` calls. -/
theorem mem_foldl_emplace (g : β → α) (rs : List β) (s : List α) (a : α) :
    a ∈ rs.foldl (fun acc r => set_emplace (g r) acc) s ↔ (∃ r ∈ rs, a = g r) ∨ a ∈ s := by
  induction rs generalizing s with
  | nil => simp
  | cons r rs ih =>
    simp only [List.foldl_cons, ih, mem_set_emplace, List.mem_cons, exists_eq_or_imp]
    constructor
    · rintro (h | h | h)
      · exact Or.inl (Or.inr h)
      · exact Or.inl (Or.inl h)
      · exact Or.inr h
    · rintro ((h | h) | h)
      · exact Or.inr (Or.inl h)
      · exact Or.inl h
      · exact Or.inr (Or.inr h)

/-- A set filled by a loop of `emplace` calls stays in ascending order. -/
theorem sorted_foldl_emplace (g : β → α) (rs : List β) (s : List α)
    (hs : s.Sorted (· < ·)) :
    (rs.foldl (fun acc r => set_emplace (g r) acc) s).Sorted (· < ·) := by
  induction rs generalizing s with
  | nil => simpa using hs
  | cons r rs ih =>
    simp only [List.foldl_cons]
    exact ih _ (sorted_set_emplace _ _ hs)

/-- Two ascending lists with the same elements are the same list. -/
theorem sorted_ext {l₁ l₂ : List α} (h₁ : l₁.Sorted (· < ·)) (h₂ : l₂.Sorted (· < ·))
    (h : ∀ a, a ∈ l₁ ↔ a ∈ l₂) : l₁ = l₂ :=
  List.eq_of_perm_of_sorted ((List.perm_ext_iff_of_nodup h₁.nodup h₂.nodup).mpr h) h₁ h₂

end Sets

/-! ## Facts about the scan -/

section Scan

variable [LinearOrder Address]

theorem unique_ip_foldl (rs : List Record) (m : TopologyModel) :
    (rs.foldl TopologyModel.add m).unique_ip
      = rs.foldl (fun acc r => set_emplace (Address.make r.ip 0) acc) m.unique_ip := by
  induction rs generalizing m with
  | nil => rfl
  | cons r rs ih => simp only [List.foldl_cons, ih]; rfl

theorem unique_ip_and_port_foldl (rs : List Record) (m : TopologyModel) :
    (rs.foldl TopologyModel.add m).unique_ip_and_port
      = rs.foldl (fun acc r => set_emplace (Address.make r.ip r.port) acc)
          m.unique_ip_and_port := by
  induction rs generalizing m with
  | nil => rfl
  | cons r rs ih => simp only [List.foldl_cons, ih]; rfl

theorem unique_port_foldl (rs : List Record) (m : TopologyModel) :
    (rs.foldl TopologyModel.add m).unique_port
      = rs.foldl (fun acc r => set_emplace (r.port % 65536) acc) m.unique_port := by
  induction rs generalizing m with
  | nil => rfl
  | cons r rs ih =>
    simp only [List.foldl_cons, ih]
    simp [TopologyModel.add, Address.make]

theorem hostname_to_ip_foldl (rs : List Record) (m : TopologyModel) :
    (rs.foldl TopologyModel.add m).hostname_to_ip
      = m.hostname_to_ip ++ rs.map (fun r => (r.host, Address.make r.ip r.port)) := by
  induction rs generalizing m with
  | nil => simp
  | cons r rs ih => simp [List.foldl_cons, ih, TopologyModel.add]

theorem mem_unique_ip (rs : List Record) (a : Address) :
    a ∈ (scan_records rs).unique_ip ↔ ∃ r ∈ rs, a = Address.make r.ip 0 := by
  simp [scan_records, unique_ip_foldl, mem_foldl_emplace, TopologyModel.empty]

theorem mem_unique_ip_and_port (rs : List Record) (a : Address) :
    a ∈ (scan_records rs).unique_ip_and_port ↔ ∃ r ∈ rs, a = Address.make r.ip r.port := by
  simp [scan_records, unique_ip_and_port_foldl, mem_foldl_emplace, TopologyModel.empty]

theorem mem_unique_port (rs : List Record) (p : Nat) :
    p ∈ (scan_records rs).unique_port ↔ ∃ r ∈ rs, p = r.port % 65536 := by
  simp [scan_records, unique_port_foldl, mem_foldl_emplace, TopologyModel.empty]

theorem sorted_unique_ip (rs : List Record) :
    (scan_records rs).unique_ip.Sorted (· < ·) := by
  rw [scan_records, unique_ip_foldl]
  exact sorted_foldl_emplace _ _ _ (by simp [TopologyModel.empty])

theorem sorted_unique_ip_and_port (rs : List Record) :
    (scan_records rs).unique_ip_and_port.Sorted (· < ·) := by
  rw [scan_records, unique_ip_and_port_foldl]
  exact sorted_foldl_emplace _ _ _ (by simp [TopologyModel.empty])

theorem sorted_unique_port (rs : List Record) :
    (scan_records rs).unique_port.Sorted (· < ·) := by
  rw [scan_records, unique_port_foldl]
  exact sorted_foldl_emplace _ _ _ (by simp [TopologyModel.empty])

theorem hostname_to_ip_scan (rs : List Record) :
    (scan_records rs).hostname_to_ip
      = rs.map (fun r => (r.host, Address.make r.ip r.port)) := by
  simp [scan_records, hostname_to_ip_foldl, TopologyModel.empty]

end Scan

/-! ## Runs in which no external operation throws -/

section Runs

theorem bind_eq_bind {α β : Type} (r : Run α) (f : α → Run β) : r >>= f = Run.bind r f := rfl

theorem pure_eq {α : Type} (a : α) : (pure a : Run α) = ⟨[], .ok a⟩ := rfl

theorem bind_ok {α β : Type} (t : List Event) (a : α) (f : α → Run β) :
    Run.bind ⟨t, .ok a⟩ f = ⟨t ++ (f a).trace, (f a).result⟩ := rfl

theorem bind_thrown {α β : Type} (t : List Event) (what : String) (f : α → Run β) :
    Run.bind ⟨t, .thrown what⟩ f = ⟨t, .thrown what⟩ := rfl

theorem perform_ok {w : World} {e : Event} (h : w.fails e = none) :
    perform w e = ⟨[e], .ok ()⟩ := by
  simp [perform, h]

theorem perform_thrown {w : World} {e : Event} {what : String} (h : w.fails e = some what) :
    perform w e = ⟨[], .thrown what⟩ := by
  simp [perform, h]

theorem add_dummy_interface_ok {w : World} (hw : w.cooperative) (name : String)
    (addr : Address) :
    add_dummy_interface w name addr = ⟨interface_events name addr, .ok ()⟩ := by
  simp [add_dummy_interface, bind_eq_bind, perform_ok (hw _), bind_ok, interface_events]

theorem nameserver_interfaces_ok {w : World} (hw : w.cooperative) (l : List Address)
    (k : Nat) :
    nameserver_interfaces w l k
      = ⟨(l.enumFrom k).flatMap
          (fun p => interface_events ("nameserver" ++ toString p.1) p.2), .ok ()⟩ := by
  induction l generalizing k with
  | nil => rfl
  | cons a l ih =>
    rw [nameserver_interfaces, bind_eq_bind, add_dummy_interface_ok hw, bind_ok, ih (k + 1)]
    simp [List.enumFrom_cons]

theorem sharded_servers_ok {w : World} (hw : w.cooperative) (wd dir : String)
    (l : List Address) :
    sharded_servers w wd dir l = ⟨l.map (fun a => .web_server a wd dir), .ok ()⟩ := by
  induction l with
  | nil => rfl
  | cons a l ih =>
    rw [sharded_servers, bind_eq_bind, perform_ok (hw _), bind_ok, ih]
    simp

theorem write_mappings_ok {w : World} (hw : w.cooperative) (line : String × Address → String)
    (l : List (String × Address)) :
    write_mappings w line l = ⟨l.map (fun mapping => .write_hosts (line mapping)), .ok ()⟩ := by
  induction l with
  | nil => rfl
  | cons a l ih =>
    rw [write_mappings, bind_eq_bind, perform_ok (hw _), bind_ok, ih]
    simp

theorem sharded_numbering_eq (l : List Address) (k : Nat)
    (h : k + l.length ≤ 4294967296) : sharded_numbering k l = l.enumFrom k := by
  induction l generalizing k with
  | nil => rfl
  | cons a l ih =>
    cases l with
    | nil => rfl
    | cons b l =>
      simp only [List.length_cons] at h
      have hk : (k + 1) % 4294967296 = k + 1 := Nat.mod_eq_of_lt (by omega)
      rw [sharded_numbering, hk, ih (k + 1) (by simp only [List.length_cons]; omega)]
      rfl

theorem add_sharded_interfaces_run {w : World} (hw : w.cooperative) (l : List Address)
    (k : Nat) :
    add_sharded_interfaces w l k
      = ⟨((sharded_numbering k l).map (fun p => ("sharded" ++ toString p.1, p.2))).flatMap
          (fun p => interface_events p.1 p.2), .ok ()⟩ := by
  induction l generalizing k with
  | nil => rfl
  | cons a l ih =>
    rw [add_sharded_interfaces, bind_eq_bind, add_dummy_interface_ok hw, bind_ok, ih]
    simp [sharded_numbering]

theorem origin_interfaces_ok {w : World} (hw : w.cooperative) (single_server : Bool)
    (m : TopologyModel) :
    origin_interfaces w single_server m
      = ⟨(origin_interface_list single_server m).flatMap
          (fun p => interface_events p.1 p.2), .ok ()⟩ := by
  cases single_server with
  | true => simp [origin_interfaces, origin_interface_list, add_dummy_interface_ok hw]
  | false => simp [origin_interfaces, origin_interface_list, add_sharded_interfaces_run hw]

theorem servers_and_hosts_ok {w : World} (hw : w.cooperative) (single_server : Bool)
    (wd dir : String) (m : TopologyModel) :
    servers_and_hosts w single_server wd dir m
      = ⟨server_events single_server wd dir m, .ok ()⟩ := by
  cases single_server with
  | true =>
    simp [servers_and_hosts, server_events, bind_eq_bind, emit, perform_ok (hw _), bind_ok,
      write_mappings_ok hw]
  | false =>
    simp [servers_and_hosts, server_events, bind_eq_bind, emit, bind_ok,
      sharded_servers_ok hw, write_mappings_ok hw]

variable [LinearOrder Address]

/-- The scan loop over files that open and decode, followed by more files. -/
theorem scan_files_append {w : World} (pre rest : List String) (rs : List Record)
    (m : TopologyModel) (hopen : ∀ f ∈ pre, w.fails (.open_file f) = none)
    (hdec : pre.map w.parse = rs.map some) :
    scan_files w (pre ++ rest) m
      = ⟨pre.map .open_file ++ (scan_files w rest (rs.foldl TopologyModel.add m)).trace,
          (scan_files w rest (rs.foldl TopologyModel.add m)).result⟩ := by
  induction pre generalizing rs m with
  | nil =>
    cases rs with
    | nil => simp
    | cons r rs => simp at hdec
  | cons f pre ih =>
    cases rs with
    | nil => simp at hdec
    | cons r rs =>
      simp only [List.map_cons, List.cons.injEq] at hdec
      have hf : w.fails (.open_file f) = none := hopen f (List.mem_cons_self _ _)
      have hpre : ∀ g ∈ pre, w.fails (.open_file g) = none :=
        fun g hg => hopen g (List.mem_cons_of_mem _ hg)
      have hrec := ih rs (m.add r) hpre hdec.2
      simp only [List.cons_append, scan_files, bind_eq_bind, perform_ok hf, bind_ok, hdec.1]
      rw [show pre.append rest = pre ++ rest from rfl, hrec]
      simp

theorem scan_files_decoded {w : World} (files : List String) (rs : List Record)
    (m : TopologyModel) (hopen : ∀ f ∈ files, w.fails (.open_file f) = none)
    (hdec : files.map w.parse = rs.map some) :
    scan_files w files m = ⟨files.map .open_file, .ok (rs.foldl TopologyModel.add m)⟩ := by
  have h := scan_files_append files [] rs m hopen hdec
  simpa [scan_files, pure_eq] using h

theorem corpus_scan_ok {w : World} (hw : w.cooperative) (dir : String) (rs : List Record)
    (hdec : (w.directory_contents dir).map w.parse = rs.map some) :
    corpus_scan w dir = ⟨scan_events w dir, .ok (scan_records rs)⟩ := by
  simp [corpus_scan, scan_events, scan_records, bind_eq_bind, perform_ok (hw _), bind_ok,
    pure_eq, scan_files_decoded _ rs _ (fun f _ => hw (.open_file f)) hdec]

theorem container_ok {w : World} (hw : w.cooperative) (single_server : Bool)
    (dir wd : String) (command : List String) (rs : List Record)
    (hdec : (w.directory_contents dir).map w.parse = rs.map some) :
    container w single_server dir wd command
      = ⟨[.unshare_newnet, .interface_up "lo", .srandom] ++ scan_events w dir
          ++ (origin_interface_list single_server (scan_records rs)).flatMap
              (fun p => interface_events p.1 p.2)
          ++ [.temp_file "/tmp/replayshell_hosts"]
          ++ server_events single_server wd dir (scan_records rs)
          ++ supervision_events w command, .ok w.loop_status⟩ := by
  simp [container, bind_eq_bind, emit, perform_ok (hw _), bind_ok, pure_eq,
    corpus_scan_ok hw dir rs hdec, origin_interfaces_ok hw, servers_and_hosts_ok hw,
    nameserver_interfaces_ok hw, supervision_events, dnsmasq_args]

/-- Argument resolution (lines 45-82) on a well-formed argument vector. -/
theorem main_try_arguments {w : World} (program d : String) (single_server : Bool)
    (command : List String) (hd : d ≠ "")
    (hflag : single_server = false → d ≠ "--single-server")
    (h1 : w.fails (.check_requirements (command_line program single_server d command)) = none)
    (h2 : w.fails .get_working_directory = none)
    (h3 : w.fails (.chdir w.working_directory) = none) :
    main_try w (command_line program single_server d command)
      = ⟨[.clear_environment,
            .check_requirements (command_line program single_server d command),
            .get_working_directory, .chdir w.working_directory]
          ++ (container w single_server (clean_directory d) w.working_directory
                (user_command w command)).trace,
          (container w single_server (clean_directory d) w.working_directory
                (user_command w command)).result⟩ := by
  cases single_server with
  | true =>
    have hc : command_of w (command_line program true d command) 3 = user_command w command := by
      cases command <;> simp [command_of, command_line, user_command]
    simp only [main_try, bind_eq_bind, emit, perform_ok h1, perform_ok h2, perform_ok h3,
      bind_ok]
    have hlen : ¬ (command.length + 1 + 1 + 1 < 2) := by omega
    simp [command_line, argv_string, pure_eq, bind_eq_bind, bind_ok, hd, hlen] at hc ⊢
    simp [hc]
  | false =>
    have hne : d ≠ "--single-server" := hflag rfl
    have hc : command_of w (command_line program false d command) 2 = user_command w command := by
      cases command <;> simp [command_of, command_line, user_command]
    simp only [main_try, bind_eq_bind, emit, perform_ok h1, perform_ok h2, perform_ok h3,
      bind_ok]
    have hlen : ¬ (command.length + 1 + 1 < 2) := by omega
    simp [command_line, argv_string, pure_eq, bind_eq_bind, bind_ok, hd, hne, hlen] at hc ⊢
    simp [hc]

/-- A whole run of `main` in which nothing throws. -/
theorem main_ok {w : World} (hw : w.cooperative) (program d : String) (single_server : Bool)
    (command : List String) (rs : List Record) (hd : d ≠ "")
    (hflag : single_server = false → d ≠ "--single-server")
    (hdec : (w.directory_contents (clean_directory d)).map w.parse = rs.map some) :
    main w (command_line program single_server d command)
      = ⟨success_trace w (command_line program single_server d command) single_server
          (clean_directory d) (user_command w command) (scan_records rs),
          .ok w.loop_status⟩ := by
  simp [main, main_try_arguments program d single_server command hd hflag (hw _) (hw _) (hw _),
    container_ok hw single_server _ _ _ rs hdec, success_trace]

/-- The scan block when listing the directory throws. -/
theorem corpus_scan_listing_throws {w : World} (dir what : String)
    (hlist : w.fails (.list_directory_contents dir) = some what)
    (hlower : w.fails .lower_privileges = none)
    (hrestore : w.fails .restore_privileges = none) :
    corpus_scan w dir = ⟨[.lower_privileges, .restore_privileges], .thrown what⟩ := by
  simp [corpus_scan, bind_eq_bind, perform_ok hlower, perform_ok hrestore,
    perform_thrown hlist, bind_ok, bind_thrown]

/-- The scan block when a file that does not decode follows files that do. -/
theorem corpus_scan_invalid {w : World} (hw : w.cooperative) (dir : String)
    (pre post : List String) (f : String) (rs : List Record)
    (hfiles : w.directory_contents dir = pre ++ f :: post)
    (hdec : pre.map w.parse = rs.map some) (hf : w.parse f = none) :
    corpus_scan w dir
      = ⟨[.lower_privileges, .list_directory_contents dir]
          ++ (pre ++ [f]).map .open_file ++ [.restore_privileges],
          .thrown (f ++ ": invalid HTTP request/response")⟩ := by
  have hscan : scan_files w (pre ++ f :: post) TopologyModel.empty
      = ⟨(pre ++ [f]).map .open_file, .thrown (f ++ ": invalid HTTP request/response")⟩ := by
    rw [scan_files_append pre (f :: post) rs _ (fun g _ => hw (.open_file g)) hdec]
    simp [scan_files, bind_eq_bind, perform_ok (hw _), bind_ok, hf, Run.throw]
  simp [corpus_scan, bind_eq_bind, perform_ok (hw _), bind_ok, hfiles, hscan]

end Runs

section Strings

/-- The test of line 64 holds exactly for the strings that end with `/`. -/
theorem getLast_slash_iff (d : String) :
    d.data.getLast? = some '/' ↔ ∃ p : String, d = p ++ "/" := by
  constructor
  · intro h
    obtain ⟨ys, hys⟩ := List.getLast?_eq_some_iff.mp h
    refine ⟨⟨ys⟩, String.ext ?_⟩
    rw [String.data_append, hys]
  · rintro ⟨p, rfl⟩
    rw [String.data_append]
    exact List.getLast?_concat _

theorem clean_directory_of_slash (d : String) (h : ∃ p : String, d = p ++ "/") :
    clean_directory d = d := by
  simp [clean_directory, (getLast_slash_iff d).mpr h]

theorem clean_directory_of_no_slash (d : String) (h : ¬ ∃ p : String, d = p ++ "/") :
    clean_directory d = d ++ "/" := by
  have h' : ¬ d.data.getLast? = some '/' := fun hs => h ((getLast_slash_iff d).mp hs)
  simp [clean_directory, h']

theorem clean_directory_ends (d : String) : ∃ p : String, clean_directory d = p ++ "/" := by
  by_cases h : ∃ p : String, d = p ++ "/"
  · rw [clean_directory_of_slash d h]
    exact h
  · exact ⟨d, clean_directory_of_no_slash d h⟩

/-- Files that all decode, as the list of their records. -/
theorem map_parse_decoded (w : World) (files : List String)
    (h : ∀ f ∈ files, (w.parse f).isSome = true) :
    files.map w.parse = (files.filterMap w.parse).map some := by
  induction files with
  | nil => rfl
  | cons f files ih =>
    have hf := h f (List.mem_cons_self _ _)
    obtain ⟨r, hr⟩ := Option.isSome_iff_exists.mp hf
    have hrest := ih (fun g hg => h g (List.mem_cons_of_mem _ hg))
    simp [List.filterMap_cons, hr, hrest]

end Strings

/-! ## Projections of a successful run -/

section Projections

theorem filterMap_none {α β : Type} (l : List α) :
    l.filterMap (fun _ => (none : Option β)) = [] := by
  induction l with
  | nil => rfl
  | cons a l ih => simp

theorem filterMap_some {α β : Type} (f : α → β) (l : List α) :
    l.filterMap (fun x => some (f x)) = l.map f := by
  induction l with
  | nil => rfl
  | cons a l ih => simp [ih]

theorem flatMap_nil {α β : Type} (l : List α) :
    l.flatMap (fun _ => ([] : List β)) = [] := by
  induction l with
  | nil => rfl
  | cons a l ih => simp

theorem flatMap_single {α β : Type} (f : α → β) (l : List α) :
    l.flatMap (fun x => [f x]) = l.map f := by
  induction l with
  | nil => rfl
  | cons a l ih => simp [ih]

theorem filter_false {α : Type} (l : List α) :
    l.filter (fun _ => false) = [] := by
  induction l with
  | nil => rfl
  | cons a l ih => simp

theorem hosts_writes_success (w : World) (argv : List String) (single_server : Bool)
    (dir : String) (command : List String) (m : TopologyModel) :
    hosts_writes (success_trace w argv single_server dir command m)
      = m.hostname_to_ip.map (fun mapping =>
          (if single_server then single_server_listen_ip else mapping.2.ip)
            ++ " " ++ mapping.1 ++ "\n") := by
  cases single_server <;>
    simp [hosts_writes, success_trace, scan_events, server_events, supervision_events,
      interface_events, List.filterMap_append, List.filterMap_flatMap, List.filterMap_map,
      Function.comp_def, filterMap_none, filterMap_some, flatMap_nil, flatMap_single]

theorem assigned_addresses_success (w : World) (argv : List String) (single_server : Bool)
    (dir : String) (command : List String) (m : TopologyModel) :
    assigned_addresses (success_trace w argv single_server dir command m)
      = origin_interface_list single_server m
          ++ (w.nameservers.enumFrom 0).map (fun p => ("nameserver" ++ toString p.1, p.2)) := by
  cases single_server <;>
    simp [assigned_addresses, success_trace, scan_events, server_events, supervision_events,
      interface_events, List.filterMap_append, List.filterMap_flatMap, List.filterMap_map,
      Function.comp_def, filterMap_none, filterMap_some, flatMap_nil, flatMap_single]

theorem created_interfaces_success (w : World) (argv : List String) (single_server : Bool)
    (dir : String) (command : List String) (m : TopologyModel) :
    created_interfaces (success_trace w argv single_server dir command m)
      = (origin_interface_list single_server m).map Prod.fst
          ++ (w.nameservers.enumFrom 0).map (fun p => "nameserver" ++ toString p.1) := by
  cases single_server <;>
    simp [created_interfaces, success_trace, scan_events, server_events, supervision_events,
      interface_events, List.filterMap_append, List.filterMap_flatMap, List.filterMap_map,
      Function.comp_def, filterMap_none, filterMap_some, flatMap_nil, flatMap_single]

theorem web_servers_success (w : World) (argv : List String) (single_server : Bool)
    (dir : String) (command : List String) (m : TopologyModel) :
    web_servers (success_trace w argv single_server dir command m)
      = if single_server then
          [.web_server_single single_server_listen_ip m.unique_port w.working_directory dir]
        else m.unique_ip_and_port.map (fun a => .web_server a w.working_directory dir) := by
  cases single_server <;>
    simp [web_servers, success_trace, scan_events, server_events, supervision_events,
      interface_events, List.filter_append, List.filter_flatMap, List.filter_map,
      Function.comp_def, filter_false, flatMap_nil]

theorem registered_children_success (w : World) (argv : List String) (single_server : Bool)
    (dir : String) (command : List String) (m : TopologyModel) :
    registered_children (success_trace w argv single_server dir command m)
      = [.dnsmasq (dnsmasq_args w), .user_command command] := by
  cases single_server <;>
    simp [registered_children, success_trace, scan_events, server_events, supervision_events,
      interface_events, List.filterMap_append, List.filterMap_flatMap, List.filterMap_map,
      Function.comp_def, filterMap_none, filterMap_some, flatMap_nil, flatMap_single]

end Projections

/-! ## Properties of `main` -/

section Properties

/-- C1: when every listed file opens and decodes, the scan loop of `main`
ends with sets in which every element of `unique_ip` has port 0, the IPs of
`unique_ip` are exactly the IPs of `unique_ip_and_port`, and `unique_port` is
exactly the set of ports of `unique_ip_and_port`. -/
theorem scan_sets_consistent [LinearOrder Address] (w : World) (files : List String)
    (rs : List Record) (hopen : ∀ f ∈ files, w.fails (.open_file f) = none)
    (hdec : files.map w.parse = rs.map some) :
    ∃ m, (scan_files w files TopologyModel.empty).result = .ok m ∧
      (∀ a ∈ m.unique_ip, a.port = 0) ∧
      (∀ ip, (∃ a ∈ m.unique_ip, a.ip = ip) ↔ ∃ a ∈ m.unique_ip_and_port, a.ip = ip) ∧
      (∀ p, p ∈ m.unique_port ↔ ∃ a ∈ m.unique_ip_and_port, a.port = p) := by
  refine ⟨scan_records rs, ?_, ?_, ?_, ?_⟩
  · rw [scan_files_decoded files rs _ hopen hdec]
    rfl
  · intro a ha
    obtain ⟨r, _, rfl⟩ := (mem_unique_ip rs a).mp ha
    rfl
  · intro ip
    constructor
    · rintro ⟨a, ha, rfl⟩
      obtain ⟨r, hr, rfl⟩ := (mem_unique_ip rs a).mp ha
      exact ⟨Address.make r.ip r.port, (mem_unique_ip_and_port rs _).mpr ⟨r, hr, rfl⟩, rfl⟩
    · rintro ⟨a, ha, rfl⟩
      obtain ⟨r, hr, rfl⟩ := (mem_unique_ip_and_port rs a).mp ha
      exact ⟨Address.make r.ip 0, (mem_unique_ip rs _).mpr ⟨r, hr, rfl⟩, rfl⟩
  · intro p
    constructor
    · intro hp
      obtain ⟨r, hr, rfl⟩ := (mem_unique_port rs p).mp hp
      exact ⟨Address.make r.ip r.port, (mem_unique_ip_and_port rs _).mpr ⟨r, hr, rfl⟩, rfl⟩
    · rintro ⟨a, ha, rfl⟩
      obtain ⟨r, hr, rfl⟩ := (mem_unique_ip_and_port rs a).mp ha
      exact (mem_unique_port rs _).mpr ⟨r, hr, rfl⟩

/-- The statement of C1 at the corpus of `two_port_world`. -/
theorem scan_sets_consistent_witness :
    ∃ m, (@scan_files Address.lexOrder two_port_world ["corpus/save.1", "corpus/save.2"]
        TopologyModel.empty).result = .ok m ∧
      (∀ a ∈ m.unique_ip, a.port = 0) ∧
      (∀ ip, (∃ a ∈ m.unique_ip, a.ip = ip) ↔ ∃ a ∈ m.unique_ip_and_port, a.ip = ip) ∧
      (∀ p, p ∈ m.unique_port ↔ ∃ a ∈ m.unique_ip_and_port, a.port = p) :=
  @scan_sets_consistent Address.lexOrder two_port_world ["corpus/save.1", "corpus/save.2"]
    two_port_records (fun _ _ => rfl) (by decide)

/-- C2: in a run of `main` in which nothing throws and every listed file
decodes, the texts written to the hosts file are, in listing order, one line
`<IP> <Host header>\n` per record, the IP being `23.253.180.102` in
single-server mode and the record's origin IP otherwise. -/
theorem hosts_file_lines [LinearOrder Address] (w : World) (hw : w.cooperative)
    (program d : String) (single_server : Bool) (command : List String) (rs : List Record)
    (hd : d ≠ "") (hflag : single_server = false → d ≠ "--single-server")
    (hdec : (w.directory_contents (clean_directory d)).map w.parse = rs.map some) :
    hosts_writes (main w (command_line program single_server d command)).trace
      = rs.map (fun r =>
          (if single_server then "23.253.180.102" else r.ip) ++ " " ++ r.host ++ "\n") := by
  rw [main_ok hw program d single_server command rs hd hflag hdec, hosts_writes_success,
    hostname_to_ip_scan]
  simp [Address.make, single_server_listen_ip, Function.comp_def]

/-- The statement of C2 at the corpus of `two_port_world`, in both modes. -/
theorem hosts_file_lines_witness :
    hosts_writes (@main Address.lexOrder two_port_world
        ["replayshell", "--single-server", "corpus"]).trace
      = ["23.253.180.102 example.com\n", "23.253.180.102 example.com\n"] ∧
    hosts_writes (@main Address.lexOrder two_port_world ["replayshell", "corpus"]).trace
      = ["10.0.0.1 example.com\n", "10.0.0.1 example.com\n"] :=
  ⟨@hosts_file_lines Address.lexOrder two_port_world (fun _ => rfl) "replayshell" "corpus"
      true [] two_port_records (by decide) (by decide) (by decide),
    @hosts_file_lines Address.lexOrder two_port_world (fun _ => rfl) "replayshell" "corpus"
      false [] two_port_records (by decide) (by decide) (by decide)⟩

/-- C3: in a run of `main` in which nothing throws and every listed file
decodes, the dummy interfaces created are the origin interfaces followed by
one interface per resolver.  In sharded mode (with no more unique IPs than an
`unsigned int` counts) the origin interfaces are `sharded0`, `sharded1`, ...,
one per element of `unique_ip`, the one with suffix `i` getting the `i`-th
element of `unique_ip`, which is in ascending order and holds exactly the
origin IPs with port 0; in single-server mode the only origin interface is
`external` with the address `23.253.180.102`. -/
theorem origin_dummy_interfaces [LinearOrder Address] (w : World) (hw : w.cooperative)
    (program d : String) (single_server : Bool) (command : List String) (rs : List Record)
    (hd : d ≠ "") (hflag : single_server = false → d ≠ "--single-server")
    (hdec : (w.directory_contents (clean_directory d)).map w.parse = rs.map some)
    (hlen : single_server = false → (scan_records rs).unique_ip.length ≤ 4294967296) :
    assigned_addresses (main w (command_line program single_server d command)).trace
      = (if single_server then [("external", (⟨"23.253.180.102", 0⟩ : Address))]
          else (scan_records rs).unique_ip.enum.map
            (fun p => ("sharded" ++ toString p.1, p.2)))
        ++ w.nameservers.enum.map (fun p => ("nameserver" ++ toString p.1, p.2)) ∧
    created_interfaces (main w (command_line program single_server d command)).trace
      = (assigned_addresses
          (main w (command_line program single_server d command)).trace).map Prod.fst ∧
    (scan_records rs).unique_ip.Sorted (· < ·) ∧
    (∀ a, a ∈ (scan_records rs).unique_ip ↔ ∃ r ∈ rs, a = ⟨r.ip, 0⟩) := by
  have horigin : origin_interface_list single_server (scan_records rs)
      = if single_server then [("external", (⟨"23.253.180.102", 0⟩ : Address))]
        else (scan_records rs).unique_ip.enum.map
          (fun p => ("sharded" ++ toString p.1, p.2)) := by
    cases single_server with
    | true => rfl
    | false =>
      simp [origin_interface_list, List.enum,
        sharded_numbering_eq _ 0 (by simpa using hlen rfl)]
  refine ⟨?_, ?_, sorted_unique_ip rs, ?_⟩
  · rw [main_ok hw program d single_server command rs hd hflag hdec,
      assigned_addresses_success, horigin]
    rfl
  · rw [main_ok hw program d single_server command rs hd hflag hdec,
      assigned_addresses_success, created_interfaces_success]
    simp [Function.comp_def]
  · intro a
    simpa [Address.make] using mem_unique_ip rs a

/-- The statement of C3 at the corpus of `two_port_world`, in both modes. -/
theorem origin_dummy_interfaces_witness :
    assigned_addresses (@main Address.lexOrder two_port_world ["replayshell", "corpus"]).trace
      = [("sharded0", ⟨"10.0.0.1", 0⟩), ("nameserver0", ⟨"8.8.8.8", 53⟩)] ∧
    assigned_addresses (@main Address.lexOrder two_port_world
        ["replayshell", "--single-server", "corpus"]).trace
      = [("external", ⟨"23.253.180.102", 0⟩), ("nameserver0", ⟨"8.8.8.8", 53⟩)] :=
  ⟨(@origin_dummy_interfaces Address.lexOrder two_port_world (fun _ => rfl) "replayshell"
      "corpus" false [] two_port_records (by decide) (by decide) (by decide)
      (fun _ => by decide)).1,
    (@origin_dummy_interfaces Address.lexOrder two_port_world (fun _ => rfl) "replayshell"
      "corpus" true [] two_port_records (by decide) (by decide) (by decide)
      (fun h => absurd h (by decide))).1⟩

/-- C4: in a run of `main` in which nothing throws and every listed file
decodes, the `WebServer` objects constructed are, in sharded mode, one per
element of `unique_ip_and_port`, each given that address, and, in
single-server mode, exactly one, given `23.253.180.102` and the whole of
`unique_port`; `unique_ip_and_port` holds exactly the (IP, port) pairs of the
records and `unique_port` exactly their ports, both without repetition. -/
theorem replay_server_handles [LinearOrder Address] (w : World) (hw : w.cooperative)
    (program d : String) (single_server : Bool) (command : List String) (rs : List Record)
    (hd : d ≠ "") (hflag : single_server = false → d ≠ "--single-server")
    (hdec : (w.directory_contents (clean_directory d)).map w.parse = rs.map some) :
    web_servers (main w (command_line program single_server d command)).trace
      = (if single_server then
          [.web_server_single "23.253.180.102" (scan_records rs).unique_port
            w.working_directory (clean_directory d)]
        else (scan_records rs).unique_ip_and_port.map
          (fun a => .web_server a w.working_directory (clean_directory d))) ∧
    (scan_records rs).unique_ip_and_port.Nodup ∧
    (∀ a, a ∈ (scan_records rs).unique_ip_and_port
      ↔ ∃ r ∈ rs, a = ⟨r.ip, r.port % 65536⟩) ∧
    (scan_records rs).unique_port.Nodup ∧
    (∀ p, p ∈ (scan_records rs).unique_port ↔ ∃ r ∈ rs, p = r.port % 65536) := by
  refine ⟨?_, (sorted_unique_ip_and_port rs).nodup, ?_, (sorted_unique_port rs).nodup,
    mem_unique_port rs⟩
  · rw [main_ok hw program d single_server command rs hd hflag hdec, web_servers_success]
    rfl
  · intro a
    simpa [Address.make] using mem_unique_ip_and_port rs a

/-- The statement of C4 at the corpus of `two_port_world` (one IP, the ports
80 and 443): two servers in sharded mode for the one origin interface
`sharded0`, one server in single-server mode. -/
theorem replay_server_handles_witness :
    web_servers (@main Address.lexOrder two_port_world ["replayshell", "corpus"]).trace
      = [.web_server ⟨"10.0.0.1", 80⟩ "/home/user" "corpus/",
          .web_server ⟨"10.0.0.1", 443⟩ "/home/user" "corpus/"] ∧
    web_servers (@main Address.lexOrder two_port_world
        ["replayshell", "--single-server", "corpus"]).trace
      = [.web_server_single "23.253.180.102" [80, 443] "/home/user" "corpus/"] ∧
    created_interfaces (@main Address.lexOrder two_port_world ["replayshell", "corpus"]).trace
      = ["sharded0", "nameserver0"] :=
  ⟨(@replay_server_handles Address.lexOrder two_port_world (fun _ => rfl) "replayshell"
      "corpus" false [] two_port_records (by decide) (by decide) (by decide)).1,
    (@replay_server_handles Address.lexOrder two_port_world (fun _ => rfl) "replayshell"
      "corpus" true [] two_port_records (by decide) (by decide) (by decide)).1,
    by decide⟩

/-- C7, as the code has it: on an empty corpus directory a run of `main` in
which nothing throws creates no origin interface, no web server and no line
of the hosts file in sharded mode, and the one interface `external` and one
web server with an empty port set in single-server mode; in both modes the
hosts file is created, the resolver interfaces follow and dnsmasq and the
user command are registered before the loop runs. -/
theorem empty_corpus_run [LinearOrder Address] (w : World) (hw : w.cooperative)
    (program d : String) (single_server : Bool) (command : List String)
    (hd : d ≠ "") (hflag : single_server = false → d ≠ "--single-server")
    (hempty : w.directory_contents (clean_directory d) = []) :
    main w (command_line program single_server d command)
      = ⟨[.clear_environment,
            .check_requirements (command_line program single_server d command),
            .get_working_directory, .chdir w.working_directory, .unshare_newnet,
            .interface_up "lo", .srandom, .lower_privileges,
            .list_directory_contents (clean_directory d), .restore_privileges]
          ++ (if single_server then
                [.link_add_dummy "external", .interface_up "external",
                  .interface_address "external" ⟨"23.253.180.102", 0⟩]
              else [])
          ++ [.temp_file "/tmp/replayshell_hosts"]
          ++ (if single_server then
                [.cerr "[ReplayShell] Running in single-server mode...",
                  .web_server_single "23.253.180.102" [] w.working_directory
                    (clean_directory d)]
              else [.cerr "[ReplayShell] Running in multi-server mode..."])
          ++ [.event_loop_create, .all_nameservers]
          ++ w.nameservers.enum.flatMap (fun p =>
                [.link_add_dummy ("nameserver" ++ toString p.1),
                  .interface_up ("nameserver" ++ toString p.1),
                  .interface_address ("nameserver" ++ toString p.1) p.2])
          ++ [.start_dnsmasq ["-H", w.temp_file_name "/tmp/replayshell_hosts"],
              .add_child_process (.dnsmasq ["-H", w.temp_file_name "/tmp/replayshell_hosts"]),
              .add_child_process (.user_command (user_command w command)), .loop],
          .ok w.loop_status⟩ := by
  have hdec : (w.directory_contents (clean_directory d)).map w.parse
      = ([] : List Record).map some := by simp [hempty]
  rw [main_ok hw program d single_server command [] hd hflag hdec]
  cases single_server <;>
    simp [success_trace, scan_events, hempty, origin_interface_list, server_events,
      supervision_events, scan_records, TopologyModel.empty, interface_events,
      sharded_numbering, dnsmasq_args, Address.make, single_server_listen_ip, List.enum]

/-- The statement of C7 as amended, at the empty corpus of `empty_world`. -/
theorem empty_corpus_run_witness :
    @main Address.lexOrder empty_world ["replayshell", "corpus", "make", "test"]
      = ⟨[.clear_environment, .check_requirements ["replayshell", "corpus", "make", "test"],
            .get_working_directory, .chdir "/home/user", .unshare_newnet,
            .interface_up "lo", .srandom, .lower_privileges,
            .list_directory_contents "corpus/", .restore_privileges,
            .temp_file "/tmp/replayshell_hosts",
            .cerr "[ReplayShell] Running in multi-server mode...",
            .event_loop_create, .all_nameservers,
            .link_add_dummy "nameserver0", .interface_up "nameserver0",
            .interface_address "nameserver0" ⟨"8.8.8.8", 53⟩,
            .start_dnsmasq ["-H", "/tmp/replayshell_hosts.1a2b3c"],
            .add_child_process (.dnsmasq ["-H", "/tmp/replayshell_hosts.1a2b3c"]),
            .add_child_process (.user_command ["make", "test"]), .loop],
          .ok 0⟩ :=
  @empty_corpus_run Address.lexOrder empty_world (fun _ => rfl) "replayshell" "corpus" false
    ["make", "test"] (by decide) (by decide) rfl

/-- C7 fails in single-server mode: on the empty corpus of `empty_world` the
run creates the origin interface `external` and one web server. -/
theorem empty_corpus_single_server_counterexample :
    empty_world.directory_contents "corpus/" = [] ∧
    created_interfaces (@main Address.lexOrder empty_world
        ["replayshell", "--single-server", "corpus"]).trace
      = ["external", "nameserver0"] ∧
    web_servers (@main Address.lexOrder empty_world
        ["replayshell", "--single-server", "corpus"]).trace
      = [.web_server_single "23.253.180.102" [] "/home/user" "corpus/"] := by
  decide

/-- C8, as the code has it: in a run of `main` in which nothing throws and
every listed file decodes, the children registered with the event loop are
exactly dnsmasq and the user command, in this order and right before the loop
runs; no web server is registered. -/
theorem children_of_event_loop [LinearOrder Address] (w : World) (hw : w.cooperative)
    (program d : String) (single_server : Bool) (command : List String) (rs : List Record)
    (hd : d ≠ "") (hflag : single_server = false → d ≠ "--single-server")
    (hdec : (w.directory_contents (clean_directory d)).map w.parse = rs.map some) :
    registered_children (main w (command_line program single_server d command)).trace
      = [.dnsmasq ["-H", w.temp_file_name "/tmp/replayshell_hosts"],
          .user_command (user_command w command)] ∧
    ∃ before,
      (main w (command_line program single_server d command)).trace
        = before ++
          [.add_child_process (.dnsmasq ["-H", w.temp_file_name "/tmp/replayshell_hosts"]),
            .add_child_process (.user_command (user_command w command)), .loop] ∧
      registered_children before = [] := by
  have hall := registered_children_success w (command_line program single_server d command)
    single_server (clean_directory d) (user_command w command) (scan_records rs)
  rw [main_ok hw program d single_server command rs hd hflag hdec]
  refine ⟨hall, ?_⟩
  have hsplit : ∃ before, success_trace w (command_line program single_server d command)
      single_server (clean_directory d) (user_command w command) (scan_records rs)
      = before ++
          [.add_child_process (.dnsmasq ["-H", w.temp_file_name "/tmp/replayshell_hosts"]),
            .add_child_process (.user_command (user_command w command)), .loop] := by
    refine ⟨[.clear_environment,
        .check_requirements (command_line program single_server d command),
        .get_working_directory, .chdir w.working_directory, .unshare_newnet,
        .interface_up "lo", .srandom]
      ++ scan_events w (clean_directory d)
      ++ (origin_interface_list single_server (scan_records rs)).flatMap
          (fun p => interface_events p.1 p.2)
      ++ [.temp_file "/tmp/replayshell_hosts"]
      ++ server_events single_server w.working_directory (clean_directory d) (scan_records rs)
      ++ ([.event_loop_create, .all_nameservers]
        ++ (w.nameservers.enumFrom 0).flatMap
            (fun p => interface_events ("nameserver" ++ toString p.1) p.2)
        ++ [.start_dnsmasq (dnsmasq_args w)]), ?_⟩
    simp [success_trace, supervision_events, dnsmasq_args]
  obtain ⟨before, hbefore⟩ := hsplit
  refine ⟨before, hbefore, ?_⟩
  rw [hbefore] at hall
  simpa [registered_children, List.filterMap_append, dnsmasq_args] using hall

/-- The statement of C8 as amended, at the corpus of `two_port_world`. -/
theorem children_of_event_loop_witness :
    registered_children (@main Address.lexOrder two_port_world
        ["replayshell", "--single-server", "corpus", "make"]).trace
      = [.dnsmasq ["-H", "/tmp/replayshell_hosts.1a2b3c"], .user_command ["make"]] :=
  (@children_of_event_loop Address.lexOrder two_port_world (fun _ => rfl) "replayshell"
    "corpus" true ["make"] two_port_records (by decide) (by decide) (by decide)).1

/-- C8 fails: on the corpus of `two_port_world` the run constructs two web
servers and registers two children, dnsmasq and the user command, none of
them a web server. -/
theorem servers_not_registered_counterexample :
    (web_servers (@main Address.lexOrder two_port_world ["replayshell", "corpus"]).trace).length
      = 2 ∧
    registered_children (@main Address.lexOrder two_port_world ["replayshell", "corpus"]).trace
      = [.dnsmasq ["-H", "/tmp/replayshell_hosts.1a2b3c"], .user_command ["/bin/sh"]] := by
  decide

/-- C5, as the code has it: when the corpus directory cannot be listed, or a
listed file does not decode as a record after files that do, `main` prints the
exception (for the file, its path followed by `: invalid HTTP
request/response`) and returns `EXIT_FAILURE`, after the network namespace
has been created and the loopback interface brought up, and before any dummy
interface, hosts file, web server or child exists. -/
theorem corpus_error_run [LinearOrder Address] (w : World) (program d : String)
    (single_server : Bool) (command : List String)
    (hd : d ≠ "") (hflag : single_server = false → d ≠ "--single-server") :
    (∀ what, w.fails (.list_directory_contents (clean_directory d)) = some what →
      (∀ e, e ≠ .list_directory_contents (clean_directory d) → w.fails e = none) →
      main w (command_line program single_server d command)
        = ⟨[.clear_environment,
              .check_requirements (command_line program single_server d command),
              .get_working_directory, .chdir w.working_directory, .unshare_newnet,
              .interface_up "lo", .srandom, .lower_privileges, .restore_privileges,
              .print_exception what],
            .ok EXIT_FAILURE⟩) ∧
    (∀ (pre : List String) (f : String) (post : List String) (rs : List Record),
      w.cooperative →
      w.directory_contents (clean_directory d) = pre ++ f :: post →
      pre.map w.parse = rs.map some → w.parse f = none →
      main w (command_line program single_server d command)
        = ⟨[.clear_environment,
              .check_requirements (command_line program single_server d command),
              .get_working_directory, .chdir w.working_directory, .unshare_newnet,
              .interface_up "lo", .srandom, .lower_privileges,
              .list_directory_contents (clean_directory d)]
            ++ (pre ++ [f]).map .open_file
            ++ [.restore_privileges,
                .print_exception (f ++ ": invalid HTTP request/response")],
            .ok EXIT_FAILURE⟩) := by
  constructor
  · intro what hlist hrest
    have hne : ∀ e, (∀ dir, e ≠ .list_directory_contents dir) → w.fails e = none :=
      fun e he => hrest e (he _)
    have h1 := hne (.check_requirements (command_line program single_server d command))
      (fun _ h => by cases h)
    have h2 := hne .get_working_directory (fun _ h => by cases h)
    have h3 := hne (.chdir w.working_directory) (fun _ h => by cases h)
    have h4 := hne .unshare_newnet (fun _ h => by cases h)
    have h5 := hne (.interface_up "lo") (fun _ h => by cases h)
    have h6 := hne .lower_privileges (fun _ h => by cases h)
    have h7 := hne .restore_privileges (fun _ h => by cases h)
    simp [main, main_try_arguments program d single_server command hd hflag h1 h2 h3,
      container, bind_eq_bind, emit, perform_ok h4, perform_ok h5, bind_ok,
      corpus_scan_listing_throws _ what hlist h6 h7, bind_thrown]
  · intro pre f post rs hw hfiles hdec hf
    simp [main, main_try_arguments program d single_server command hd hflag (hw _) (hw _)
        (hw _),
      container, bind_eq_bind, emit, perform_ok (hw _), bind_ok,
      corpus_scan_invalid hw _ pre post f rs hfiles hdec hf, bind_thrown]

/-- The statement of C5 as amended, at the missing directory of
`missing_world` and at the file of `broken_world` that is not a record. -/
theorem corpus_error_run_witness :
    @main Address.lexOrder missing_world ["replayshell", "nowhere"]
      = ⟨[.clear_environment, .check_requirements ["replayshell", "nowhere"],
            .get_working_directory, .chdir "/home/user", .unshare_newnet,
            .interface_up "lo", .srandom, .lower_privileges, .restore_privileges,
            .print_exception "opendir (nowhere/): No such file or directory"],
          .ok 1⟩ ∧
    @main Address.lexOrder broken_world ["replayshell", "--single-server", "corpus/"]
      = ⟨[.clear_environment,
            .check_requirements ["replayshell", "--single-server", "corpus/"],
            .get_working_directory, .chdir "/home/user", .unshare_newnet,
            .interface_up "lo", .srandom, .lower_privileges,
            .list_directory_contents "corpus/", .open_file "corpus/save.1",
            .open_file "corpus/notes.txt", .restore_privileges,
            .print_exception "corpus/notes.txt: invalid HTTP request/response"],
          .ok 1⟩ :=
  ⟨(@corpus_error_run Address.lexOrder missing_world "replayshell" "nowhere" false []
      (by decide) (by decide)).1 "opendir (nowhere/): No such file or directory" (by decide)
      (fun e he => by
        have h : e ≠ .list_directory_contents "nowhere/" := he
        simp [missing_world, h]),
    (@corpus_error_run Address.lexOrder broken_world "replayshell" "corpus/" true []
      (by decide) (by decide)).2 ["corpus/save.1"] "corpus/notes.txt" []
      [⟨"10.0.0.1", 80, "example.com"⟩] (fun _ => rfl) (by decide) (by decide) (by decide)⟩

/-- C5 fails: in the run on the missing directory of `missing_world`, and in
the run on the directory of `broken_world` with a file that is not a record,
the network namespace is created and the loopback interface is brought up
before `main` aborts. -/
theorem corpus_error_after_namespace_counterexample :
    (@main Address.lexOrder missing_world ["replayshell", "nowhere"]).trace
      = [.clear_environment, .check_requirements ["replayshell", "nowhere"],
          .get_working_directory, .chdir "/home/user", .unshare_newnet,
          .interface_up "lo", .srandom, .lower_privileges, .restore_privileges,
          .print_exception "opendir (nowhere/): No such file or directory"] ∧
    (@main Address.lexOrder broken_world ["replayshell", "corpus"]).trace
      = [.clear_environment, .check_requirements ["replayshell", "corpus"],
          .get_working_directory, .chdir "/home/user", .unshare_newnet,
          .interface_up "lo", .srandom, .lower_privileges,
          .list_directory_contents "corpus/", .open_file "corpus/save.1",
          .open_file "corpus/notes.txt", .restore_privileges,
          .print_exception "corpus/notes.txt: invalid HTTP request/response"] := by
  decide

/-- C6: with the program name alone `main` prints the usage error and returns
`EXIT_FAILURE` before any later phase; with the program name followed only by
`--single-server` it passes the `argc < 2` test and builds the directory
string from `argv[ 2 ]`, the element at index `argc`, and no usage error is
thrown. -/
theorem missing_directory_argument [LinearOrder Address] (w : World) (program : String)
    (h1 : w.fails (.check_requirements [program]) = none)
    (h2 : w.fails (.check_requirements [program, "--single-server"]) = none) :
    main w [program]
      = ⟨[.clear_environment, .check_requirements [program],
            .print_exception ("Usage: " ++ program ++ " directory [command...]")],
          .ok EXIT_FAILURE⟩ ∧
    main w [program, "--single-server"]
      = ⟨[.clear_environment, .check_requirements [program, "--single-server"]],
          .bad_argv 2⟩ := by
  constructor
  · simp [main, main_try, bind_eq_bind, emit, perform_ok h1, bind_ok, argv_string, pure_eq,
      Run.throw]
  · simp [main, main_try, bind_eq_bind, emit, perform_ok h2, bind_ok, argv_string, Run.bind]

/-- The statement of C6 at the program name `replayshell`. -/
theorem missing_directory_argument_witness :
    @main Address.lexOrder empty_world ["replayshell"]
      = ⟨[.clear_environment, .check_requirements ["replayshell"],
            .print_exception "Usage: replayshell directory [command...]"],
          .ok 1⟩ ∧
    @main Address.lexOrder empty_world ["replayshell", "--single-server"]
      = ⟨[.clear_environment, .check_requirements ["replayshell", "--single-server"]],
          .bad_argv 2⟩ :=
  @missing_directory_argument Address.lexOrder empty_world "replayshell" rfl rfl

/-- C9: for two listings that are permutations of each other, all of whose
files open and decode, the scan loop of `main` ends with the same `unique_ip`,
the same `unique_ip_and_port` and the same `unique_port`, and the two
`hostname_to_ip` lists are permutations of each other. -/
theorem scan_sets_listing_order [LinearOrder Address] (w : World)
    (files₁ files₂ : List String) (hperm : files₁.Perm files₂)
    (hopen : ∀ f ∈ files₁, w.fails (.open_file f) = none)
    (hdec : ∀ f ∈ files₁, (w.parse f).isSome = true) :
    ∃ m₁ m₂, (scan_files w files₁ TopologyModel.empty).result = .ok m₁ ∧
      (scan_files w files₂ TopologyModel.empty).result = .ok m₂ ∧
      m₁.unique_ip = m₂.unique_ip ∧
      m₁.unique_ip_and_port = m₂.unique_ip_and_port ∧
      m₁.unique_port = m₂.unique_port ∧
      m₁.hostname_to_ip.Perm m₂.hostname_to_ip := by
  have hopen₂ : ∀ f ∈ files₂, w.fails (.open_file f) = none :=
    fun f hf => hopen f (hperm.mem_iff.mpr hf)
  have hdec₂ : ∀ f ∈ files₂, (w.parse f).isSome = true :=
    fun f hf => hdec f (hperm.mem_iff.mpr hf)
  have hrs : (files₁.filterMap w.parse).Perm (files₂.filterMap w.parse) :=
    hperm.filterMap w.parse
  refine ⟨scan_records (files₁.filterMap w.parse), scan_records (files₂.filterMap w.parse),
    ?_, ?_, ?_, ?_, ?_, ?_⟩
  · rw [scan_files_decoded files₁ _ _ hopen (map_parse_decoded w files₁ hdec)]
    rfl
  · rw [scan_files_decoded files₂ _ _ hopen₂ (map_parse_decoded w files₂ hdec₂)]
    rfl
  · refine sorted_ext (sorted_unique_ip _) (sorted_unique_ip _) (fun a => ?_)
    simp only [mem_unique_ip, hrs.mem_iff]
  · refine sorted_ext (sorted_unique_ip_and_port _) (sorted_unique_ip_and_port _) (fun a => ?_)
    simp only [mem_unique_ip_and_port, hrs.mem_iff]
  · refine sorted_ext (sorted_unique_port _) (sorted_unique_port _) (fun a => ?_)
    simp only [mem_unique_port, hrs.mem_iff]
  · rw [hostname_to_ip_scan, hostname_to_ip_scan]
    exact hrs.map _

/-- The statement of C9 at the two listings of the corpus of `two_port_world`. -/
theorem scan_sets_listing_order_witness :
    ∃ m₁ m₂,
      (@scan_files Address.lexOrder two_port_world ["corpus/save.1", "corpus/save.2"]
        TopologyModel.empty).result = .ok m₁ ∧
      (@scan_files Address.lexOrder two_port_world ["corpus/save.2", "corpus/save.1"]
        TopologyModel.empty).result = .ok m₂ ∧
      m₁.unique_ip = m₂.unique_ip ∧
      m₁.unique_ip_and_port = m₂.unique_ip_and_port ∧
      m₁.unique_port = m₂.unique_port ∧
      m₁.hostname_to_ip.Perm m₂.hostname_to_ip :=
  @scan_sets_listing_order Address.lexOrder two_port_world ["corpus/save.1", "corpus/save.2"]
    ["corpus/save.2", "corpus/save.1"] (List.Perm.swap _ _ _) (fun _ _ => rfl) (by decide)

/-- C10: an empty directory argument makes `main` print `<program>: directory
name must be non-empty` and return `EXIT_FAILURE`; a non-empty one reaches the
later phases as `clean_directory d`, which is `d` when `d` ends with `/` and
`d` followed by one `/` when it does not, always ends with `/`, and is left
unchanged by a second normalisation. -/
theorem directory_normalisation [LinearOrder Address] (w : World) (program d : String)
    (single_server : Bool) (command : List String)
    (hflag : single_server = false → d ≠ "--single-server")
    (h1 : w.fails (.check_requirements (command_line program single_server d command)) = none)
    (h2 : w.fails .get_working_directory = none)
    (h3 : w.fails (.chdir w.working_directory) = none) :
    (d = "" →
      main w (command_line program single_server d command)
        = ⟨[.clear_environment,
              .check_requirements (command_line program single_server d command),
              .print_exception (program ++ ": directory name must be non-empty")],
            .ok EXIT_FAILURE⟩) ∧
    (d ≠ "" →
      main_try w (command_line program single_server d command)
        = ⟨[.clear_environment,
              .check_requirements (command_line program single_server d command),
              .get_working_directory, .chdir w.working_directory]
            ++ (container w single_server (clean_directory d) w.working_directory
                  (user_command w command)).trace,
            (container w single_server (clean_directory d) w.working_directory
                  (user_command w command)).result⟩) ∧
    ((∃ p : String, d = p ++ "/") → clean_directory d = d) ∧
    ((¬ ∃ p : String, d = p ++ "/") → clean_directory d = d ++ "/") ∧
    (∃ p : String, clean_directory d = p ++ "/") ∧
    clean_directory (clean_directory d) = clean_directory d := by
  refine ⟨?_, ?_, clean_directory_of_slash d, clean_directory_of_no_slash d,
    clean_directory_ends d, clean_directory_of_slash _ (clean_directory_ends d)⟩
  · intro hempty
    subst hempty
    cases single_server with
    | true =>
      have hlen : ¬ (command.length + 1 + 1 + 1 < 2) := by omega
      simp only [main, main_try, bind_eq_bind, emit, perform_ok h1, bind_ok]
      simp [command_line, argv_string, pure_eq, bind_eq_bind, bind_ok, hlen, Run.throw]
    | false =>
      have hlen : ¬ (command.length + 1 + 1 < 2) := by omega
      simp only [main, main_try, bind_eq_bind, emit, perform_ok h1, bind_ok]
      simp [command_line, argv_string, pure_eq, bind_eq_bind, bind_ok, hlen, Run.throw]
  · intro hd
    exact main_try_arguments program d single_server command hd hflag h1 h2 h3

/-- The statement of C10 at the empty directory argument, and at the
arguments `corpus` and `corpus/`. -/
theorem directory_normalisation_witness :
    @main Address.lexOrder two_port_world ["replayshell", ""]
      = ⟨[.clear_environment, .check_requirements ["replayshell", ""],
            .print_exception "replayshell: directory name must be non-empty"],
          .ok 1⟩ ∧
    clean_directory "corpus" = "corpus/" ∧ clean_directory "corpus/" = "corpus/" :=
  ⟨(@directory_normalisation Address.lexOrder two_port_world "replayshell" "" false []
      (by decide) rfl rfl rfl).1 rfl,
    (@directory_normalisation Address.lexOrder two_port_world "replayshell" "corpus" false []
      (by decide) rfl rfl rfl).2.2.2.1 (by
        rintro ⟨p, hp⟩
        have h := (getLast_slash_iff "corpus").mpr ⟨p, hp⟩
        exact absurd h (by decide)),
    (@directory_normalisation Address.lexOrder two_port_world "replayshell" "corpus/" false []
      (by decide) rfl rfl rfl).2.2.1 ⟨"corpus", rfl⟩⟩

end Properties

end ReplayShell
